import Mathlib

/-!
Verification of the question-lifecycle and schema-migration core of a
language-learning web application ("qa-learn").

The embedding below is a shallow model of the TypeScript source:

* `src/types.ts` — the data model (`Answer`, `Question`, `QuestionV1`,
  `DailyQuestions`, `UserDocument`).  Because stored documents may mix the
  current and the legacy question shape (duck typing in the source), a single
  Lean structure `StoredQuestion` carries both shape's fields, each optional
  field as an `Option`, where `Option.none` models a JavaScript field that is
  absent or `undefined`.
* `src/services/firestore.ts` — `isQuestionV1`, `migrateQuestion`,
  `migrateUserDocument`, `getUserDocument`, `addQuestion`, `updateQuestion`,
  `markQuestionAsked`, `markQuestionAnswered`.  The external document store is
  modelled as `Option UserDocument` (the per-user slot), state passed
  explicitly.
* `src/App.tsx` (`handleAnswer`) together with the answer-form guards of
  `QuestionCard` — the Submit-Answer operation, with the external validation
  service's reply passed in as data and a flag recording whether that external
  call was made.
* the `generate-question` serverless handler — the chronological sort of the
  answered-question history; a sort-key computation that would throw in
  JavaScript (indexing the last element of an empty `answers` array) is
  modelled as `Option.none`.

JavaScript truthiness on strings (empty string is falsy) is modelled
explicitly wherever the source relies on it (`strTruthy`, `orDefault`).
Timestamps are kept as strings and `new Date(s).getTime()` is an abstract
parameter `getTime : String → Int`.
-/

namespace QALearn

/-- Question lifecycle status, source `src/types.ts`: `'none' | 'asked' | 'answered'`. -/
inductive Status where
  | none
  | asked
  | answered
deriving DecidableEq, Repr, BEq

/-- One submitted answer attempt, source `src/types.ts` interface `Answer`. -/
structure Answer where
  answer : String
  isCorrect : Bool
  mistakes : String
  explanation : String
  answeredAt : String
deriving DecidableEq, Repr, BEq

/-- A question entry as stored in the document store.  The source duck-types the
union `Question | QuestionV1`; this structure carries the fields of both
shapes, `Option.none` modelling an absent/`undefined` JavaScript field.  A
current-shaped entry has `answers = some _`; the legacy (V1) single-answer
fields are `answer`, `isCorrect`, `mistakes`, `explanation`, `answeredAt`. -/
structure StoredQuestion where
  id : String
  status : Status
  question : String
  answers : Option (List Answer)
  answer : Option String
  isCorrect : Option Bool
  mistakes : Option String
  explanation : Option String
  questionExplanation : Option String
  contextConversation : Option String
  askedAt : Option String
  answeredAt : Option String
deriving DecidableEq, Repr, BEq

/-- Per-date activity record, source `src/types.ts` interface `DailyQuestions` value type. -/
structure DailyRecord where
  askedQuestionIds : List String
  answeredQuestionIds : List String
deriving DecidableEq, Repr, BEq

/-- The `dailyQuestions` mapping, a JavaScript object keyed by date string,
modelled as an association list in key-insertion order. -/
abbrev DailyQuestions := List (String × DailyRecord)

/-- The per-user aggregate document, source `src/types.ts` interface `UserDocument`. -/
structure UserDocument where
  questions : List StoredQuestion
  dailyQuestions : DailyQuestions
  level : String
deriving DecidableEq, Repr, BEq

/-- Reply of the external validation service, source `src/types.ts` interface
`ValidationResponse`. -/
structure ValidationResponse where
  correct : Bool
  mistakes : String
  explanation : String
deriving DecidableEq, Repr, BEq

/-- JavaScript truthiness of an optional string: `undefined` and `""` are falsy. -/
def strTruthy : Option String → Bool
  | some s => s ≠ ""
  | Option.none => false

/-- JavaScript `x || d` on an optional string: the default replaces an absent
or falsy (empty) value. -/
def orDefault (x : Option String) (d : String) : String :=
  match x with
  | some s => if s = "" then d else s
  | Option.none => d

/-- Source `src/services/firestore.ts` lines 22-26: an entry is legacy (V1) iff
it lacks an `answers` array (absent, `undefined`, or not an array — all three
collapse to `Option.none` in this model). -/
def isQuestionV1 (q : StoredQuestion) : Bool :=
  q.answers.isNone

/-- Source `src/services/firestore.ts` lines 29-89 (`migrateQuestion`): a
current-shaped entry is returned unchanged; a legacy entry is rebuilt in the
current shape.  When the legacy `answer` and `answeredAt` fields are both
truthy, one `Answer` record is synthesized (`isCorrect ?? false`,
`mistakes || 'none'`, `explanation || ''`); otherwise `answers` is empty.
The optional fields `questionExplanation`, `contextConversation`, `askedAt`
are copied only when truthy; the legacy single-answer fields are not carried
over (the rebuilt object simply does not mention them). -/
def migrateQuestion (q : StoredQuestion) : StoredQuestion :=
  if isQuestionV1 q = false then q
  else if strTruthy q.answer && strTruthy q.answeredAt then
    { id := q.id
      status := q.status
      question := q.question
      answers := some [{ answer := q.answer.getD ""
                         isCorrect := q.isCorrect.getD false
                         mistakes := orDefault q.mistakes "none"
                         explanation := orDefault q.explanation ""
                         answeredAt := q.answeredAt.getD "" }]
      answer := Option.none
      isCorrect := Option.none
      mistakes := Option.none
      explanation := Option.none
      questionExplanation := if strTruthy q.questionExplanation then q.questionExplanation else Option.none
      contextConversation := if strTruthy q.contextConversation then q.contextConversation else Option.none
      askedAt := if strTruthy q.askedAt then q.askedAt else Option.none
      answeredAt := Option.none }
  else
    { id := q.id
      status := q.status
      question := q.question
      answers := some []
      answer := Option.none
      isCorrect := Option.none
      mistakes := Option.none
      explanation := Option.none
      questionExplanation := if strTruthy q.questionExplanation then q.questionExplanation else Option.none
      contextConversation := if strTruthy q.contextConversation then q.contextConversation else Option.none
      askedAt := if strTruthy q.askedAt then q.askedAt else Option.none
      answeredAt := Option.none }

/-- Source `src/services/firestore.ts` lines 91-97 (`migrateUserDocument`). -/
def migrateUserDocument (doc : UserDocument) : UserDocument :=
  { questions := doc.questions.map migrateQuestion
    dailyQuestions := doc.dailyQuestions
    level := doc.level }

/-- The empty initial document, source `src/services/firestore.ts` lines 118-122. -/
def initialDoc : UserDocument :=
  { questions := [], dailyQuestions := [], level := "a0" }

/-- Result of `getUserDocument`: the value resolved to (the source's promise is
`UserDocument | null`, hence an `Option`), the document-store slot after the
call, and whether the migration write-back (`updateDoc` at line 111) ran. -/
structure GetDocResult where
  result : Option UserDocument
  store : Option UserDocument
  wroteBack : Bool
deriving DecidableEq, Repr

/-- Source `src/services/firestore.ts` lines 99-126 (`getUserDocument`): if the
stored document exists it is migrated, written back when (and only when) some
entry was legacy, and the migrated document is returned; if absent, the empty
initial document is persisted (the `setDoc` at line 124, not counted in
`wroteBack`) and returned. -/
def getUserDocument (store : Option UserDocument) : GetDocResult :=
  match store with
  | some rawDoc =>
    let migratedDoc := migrateUserDocument rawDoc
    if rawDoc.questions.any (fun q => isQuestionV1 q) then
      { result := some migratedDoc
        store := some { rawDoc with questions := migratedDoc.questions }
        wroteBack := true }
    else
      { result := some migratedDoc, store := some rawDoc, wroteBack := false }
  | Option.none =>
    { result := some initialDoc, store := some initialDoc, wroteBack := false }

/-- A `Partial<Question>` argument as used by `updateQuestion` in the source:
each current-shape field optionally updated; `Option.none` models a key that is
absent or `undefined` (and `removeUndefined`, lines 11-19, drops exactly the
`undefined`-valued keys, so after cleaning, present keys all carry values). -/
structure QuestionUpdate where
  id : Option String
  status : Option Status
  question : Option String
  answers : Option (List Answer)
  questionExplanation : Option String
  contextConversation : Option String
  askedAt : Option String
deriving DecidableEq, Repr

/-- The update with every field absent: `removeUndefined` of an all-`undefined`
partial, i.e. the empty merge. -/
def emptyUpdate : QuestionUpdate :=
  { id := Option.none
    status := Option.none
    question := Option.none
    answers := Option.none
    questionExplanation := Option.none
    contextConversation := Option.none
    askedAt := Option.none }

/-- Source `src/services/firestore.ts` lines 157-162: the JavaScript spread
`{ ...q, ...cleanedUpdates }` followed by `removeUndefined` — every key present
in the cleaned update overrides the question's value, every other key keeps it.
Legacy-shape fields are not part of `Partial<Question>` and pass through. -/
def applyUpdate (q : StoredQuestion) (u : QuestionUpdate) : StoredQuestion :=
  { id := u.id.getD q.id
    status := u.status.getD q.status
    question := u.question.getD q.question
    answers := match u.answers with | some l => some l | Option.none => q.answers
    answer := q.answer
    isCorrect := q.isCorrect
    mistakes := q.mistakes
    explanation := q.explanation
    questionExplanation := match u.questionExplanation with | some s => some s | Option.none => q.questionExplanation
    contextConversation := match u.contextConversation with | some s => some s | Option.none => q.contextConversation
    askedAt := match u.askedAt with | some s => some s | Option.none => q.askedAt
    answeredAt := q.answeredAt }

/-- Source `src/services/firestore.ts` lines 146-167 (`updateQuestion`), given
the already-loaded (migrated) document: rewrite the questions sequence, merging
the cleaned updates into the entry whose `id` matches. -/
def updateQuestion (doc : UserDocument) (questionId : String) (updates : QuestionUpdate) : UserDocument :=
  { doc with questions := doc.questions.map (fun q => if q.id == questionId then applyUpdate q updates else q) }

/-- Source `src/services/firestore.ts` lines 138-144 (`addQuestion`) at the
store level: load (and thereby migrate/create) the document, then append the
question and write the full sequence back; the `if (!userDoc) return` guard is
the `Option.none` arm. -/
def addQuestionStore (store : Option UserDocument) (question : StoredQuestion) : Option UserDocument :=
  let g := getUserDocument store
  match g.result, g.store with
  | some userDoc, some s => some { s with questions := userDoc.questions ++ [question] }
  | _, _ => g.store

/-- Lookup of `dailyQuestions[date]` on the association-list model of the
JavaScript object. -/
def lookupDay (dq : DailyQuestions) (d : String) : Option DailyRecord :=
  (dq.find? (fun e => e.1 == d)).map (fun e => e.2)

/-- The JavaScript object write `{ ...dailyQuestions, [today]: rec }`: replace
the value at an existing key in place, otherwise append the new key. -/
def setDay (dq : DailyQuestions) (d : String) (r : DailyRecord) : DailyQuestions :=
  match dq with
  | [] => [(d, r)]
  | e :: rest => if e.1 == d then (d, r) :: rest else e :: setDay rest d r

/-- Source `src/services/firestore.ts` lines 173-191 (`markQuestionAsked`),
given the loaded document and today's date key: insert the question id into
today's `askedQuestionIds` unless already a member, then store the updated
per-date record. -/
def markQuestionAsked (doc : UserDocument) (today : String) (questionId : String) : UserDocument :=
  let todayQuestions := (lookupDay doc.dailyQuestions today).getD { askedQuestionIds := [], answeredQuestionIds := [] }
  let updated :=
    if todayQuestions.askedQuestionIds.contains questionId then todayQuestions
    else { todayQuestions with askedQuestionIds := todayQuestions.askedQuestionIds ++ [questionId] }
  { doc with dailyQuestions := setDay doc.dailyQuestions today updated }

/-- Source `src/services/firestore.ts` lines 193-211 (`markQuestionAnswered`):
same as `markQuestionAsked` for `answeredQuestionIds`. -/
def markQuestionAnswered (doc : UserDocument) (today : String) (questionId : String) : UserDocument :=
  let todayQuestions := (lookupDay doc.dailyQuestions today).getD { askedQuestionIds := [], answeredQuestionIds := [] }
  let updated :=
    if todayQuestions.answeredQuestionIds.contains questionId then todayQuestions
    else { todayQuestions with answeredQuestionIds := todayQuestions.answeredQuestionIds ++ [questionId] }
  { doc with dailyQuestions := setDay doc.dailyQuestions today updated }

/-- Guard of the first-answer form, `QuestionCard` render condition
`!question.answers || question.answers.length === 0` (an empty array is truthy
in JavaScript, so only absence or emptiness shows the form). -/
def showFirstAnswerForm (q : StoredQuestion) : Bool :=
  q.answers.isNone || (q.answers.getD []).length == 0

/-- Guard of the try-again form, `QuestionCard`: the answers block renders when
`question.answers && question.answers.length > 0` and the form inside it when
`!question.answers.some(a => a.isCorrect)`. -/
def showTryAgainForm (q : StoredQuestion) : Bool :=
  (!q.answers.isNone && (q.answers.getD []).length > 0) && !((q.answers.getD []).any (fun a => a.isCorrect))

/-- A Submit-Answer call can be issued for a question iff one of the two answer
forms is rendered for it. -/
def canSubmitAnswer (q : StoredQuestion) : Bool :=
  showFirstAnswerForm q || showTryAgainForm q

/-- Result of a Submit-Answer operation: the document afterwards and whether
the external validation service was called. -/
structure SubmitResult where
  doc : UserDocument
  validationCalled : Bool
deriving DecidableEq, Repr

/-- The Submit-Answer operation: the `QuestionCard` form guards composed with
`handleAnswer` (source `src/App.tsx` lines 104-145).  The external validation
reply and the two timestamps (the `new Date().toISOString()` stamp and today's
date key) are passed in as data.  When the question is not found or no form is
rendered, nothing happens and the validation service is not called; otherwise
the new answer (stamped from the validation reply) is appended via
`updateQuestion`, `status` is set to `answered` exactly when this is the first
answer, and in that case the question is also marked answered in the daily
ledger. -/
def submitAnswer (doc : UserDocument) (questionId : String) (answerText : String)
    (validation : ValidationResponse) (answeredAt : String) (today : String) : SubmitResult :=
  match doc.questions.find? (fun q => q.id == questionId) with
  | Option.none => { doc := doc, validationCalled := false }
  | some question =>
    if canSubmitAnswer question = false then { doc := doc, validationCalled := false }
    else
      let newAnswer : Answer :=
        { answer := answerText
          isCorrect := validation.correct
          mistakes := validation.mistakes
          explanation := validation.explanation
          answeredAt := answeredAt }
      let existingAnswers := question.answers.getD []
      let updatedAnswers := existingAnswers ++ [newAnswer]
      let doc1 := updateQuestion doc questionId
        { id := Option.none
          status := some (if existingAnswers.length == 0 then Status.answered else question.status)
          question := Option.none
          answers := some updatedAnswers
          questionExplanation := Option.none
          contextConversation := Option.none
          askedAt := Option.none }
      let doc2 := if existingAnswers.length == 0 then markQuestionAnswered doc1 today questionId else doc1
      { doc := doc2, validationCalled := true }

/-- Sort key of the `generate-question` handler: the JavaScript expression
`a.answers[a.answers.length - 1].answeredAt ? new Date(...).getTime() : 0`.
Indexing the last element of an empty (or absent) `answers` array yields
`undefined` and the `.answeredAt` access throws — modelled as `Option.none`;
a last answer whose `answeredAt` is falsy (empty) gets the zero default. -/
def lastAnswerTime (getTime : String → Int) (q : StoredQuestion) : Option Int :=
  match (q.answers.getD []).getLast? with
  | Option.none => Option.none
  | some a => some (if a.answeredAt = "" then 0 else getTime a.answeredAt)

/-- The conversation-history pipeline of the `generate-question` handler:
filter to `status === 'answered'`, then sort by the latest answer's timestamp.
If any sort key computation throws (empty `answers`), the whole handler fails
(`Option.none`, the catch block's 500 reply); otherwise the stable sorted list
is produced. -/
def conversationHistoryQuestions (getTime : String → Int) (qs : List StoredQuestion) : Option (List StoredQuestion) :=
  let answered := qs.filter (fun q => q.status == Status.answered)
  if answered.all (fun q => (lastAnswerTime getTime q).isSome) then
    some (answered.mergeSort (fun a b => (lastAnswerTime getTime a).getD 0 ≤ (lastAnswerTime getTime b).getD 0))
  else Option.none

/-! ### Helper lemmas about migration -/

theorem isQuestionV1_migrateQuestion (q : StoredQuestion) :
    isQuestionV1 (migrateQuestion q) = false := by
  unfold migrateQuestion
  split
  · assumption
  · split <;> simp [isQuestionV1]

theorem migrateQuestion_eq_self {q : StoredQuestion} (h : isQuestionV1 q = false) :
    migrateQuestion q = q := by
  unfold migrateQuestion
  simp [h]

theorem migrateQuestion_idem (q : StoredQuestion) :
    migrateQuestion (migrateQuestion q) = migrateQuestion q :=
  migrateQuestion_eq_self (isQuestionV1_migrateQuestion q)

theorem map_eq_self_of {α : Type} (l : List α) (f : α → α) (h : ∀ x ∈ l, f x = x) :
    l.map f = l := by
  induction l with
  | nil => rfl
  | cons a t ih =>
    simp only [List.map_cons, h a (by simp)]
    rw [ih (fun x hx => h x (by simp [hx]))]

theorem map_congr_of {α β : Type} (l : List α) (f g : α → β) (h : ∀ x ∈ l, f x = g x) :
    l.map f = l.map g := by
  induction l with
  | nil => rfl
  | cons a t ih =>
    simp only [List.map_cons, h a (by simp)]
    rw [ih (fun x hx => h x (by simp [hx]))]

/-! ### Claim theorems about migration -/

/-- C2 counterexample: the claim as stated is false — it asks for one
synthesized `Answer` record whenever the legacy `answer` and `answeredAt`
fields are both *present*, but the code at `firestore.ts:39` tests
truthiness, so a legacy entry whose `answer` is present but the empty string
(here with `answeredAt = "T"`, `isCorrect = true` also present) migrates to an
empty `answers` sequence instead of a one-element one. -/
theorem migrate_present_empty_counterexample :
    (migrateQuestion
      { id := "1", status := Status.answered, question := "Q?",
        answers := Option.none, answer := some "", isCorrect := some true,
        mistakes := Option.none, explanation := Option.none,
        questionExplanation := Option.none, contextConversation := Option.none,
        askedAt := Option.none, answeredAt := some "T" }).answers = some [] := by
  rfl

/-- C2 (amended).  Migration losslessness for truthy legacy fields: a legacy
entry whose `answer` and `answeredAt` legacy fields are both present and
nonempty (truthy) migrates to exactly one `Answer` record carrying that answer
and timestamp, with `isCorrect` defaulting to `false`, `mistakes` to `"none"`
and `explanation` to `""` when the legacy fields are absent (`Option.getD` /
`orDefault` on the legacy values); a present-but-empty field instead falls to
the empty-answers branch (see the counterexample above). -/
theorem migrate_losslessness (q : StoredQuestion) (a t : String)
    (hv1 : isQuestionV1 q = true) (ha : q.answer = some a) (hane : a ≠ "")
    (ht : q.answeredAt = some t) (htne : t ≠ "") :
    (migrateQuestion q).answers =
      some [{ answer := a
              isCorrect := q.isCorrect.getD false
              mistakes := orDefault q.mistakes "none"
              explanation := orDefault q.explanation ""
              answeredAt := t }] := by
  unfold migrateQuestion
  simp [hv1, strTruthy, ha, ht, hane, htne]

/-- C2 witness: the spec's concrete example — legacy `answer="goed"`,
`answeredAt="T"`, `isCorrect=true` migrates to
`answers = [{answer:"goed", answeredAt:"T", isCorrect:true, mistakes:"none", explanation:""}]`. -/
theorem migrate_losslessness_witness :
    (migrateQuestion
      { id := "1", status := Status.answered, question := "Q?",
        answers := Option.none, answer := some "goed", isCorrect := some true,
        mistakes := Option.none, explanation := Option.none,
        questionExplanation := Option.none, contextConversation := Option.none,
        askedAt := Option.none, answeredAt := some "T" }).answers =
      some [{ answer := "goed", isCorrect := true, mistakes := "none",
              explanation := "", answeredAt := "T" }] := by
  have h := migrate_losslessness
      { id := "1", status := Status.answered, question := "Q?",
        answers := Option.none, answer := some "goed", isCorrect := some true,
        mistakes := Option.none, explanation := Option.none,
        questionExplanation := Option.none, contextConversation := Option.none,
        askedAt := Option.none, answeredAt := some "T" }
      "goed" "T" (by decide) rfl (by decide) rfl (by decide)
  simpa [orDefault] using h

/-- C3.  Migration idempotence: a document whose entries are all
current-shaped migrates to itself; migrating twice equals migrating once; and
the output of migration contains no legacy-shaped entries. -/
theorem migration_idempotent (doc : UserDocument) :
    ((∀ q ∈ doc.questions, isQuestionV1 q = false) → migrateUserDocument doc = doc) ∧
    migrateUserDocument (migrateUserDocument doc) = migrateUserDocument doc ∧
    (∀ q ∈ (migrateUserDocument doc).questions, isQuestionV1 q = false) := by
  refine ⟨?_, ?_, ?_⟩
  · intro h
    cases doc with
    | mk qs dq lv =>
      simp only [migrateUserDocument]
      rw [map_eq_self_of qs migrateQuestion (fun q hq => migrateQuestion_eq_self (h q hq))]
  · have h2 : List.map (migrateQuestion ∘ migrateQuestion) doc.questions
        = List.map migrateQuestion doc.questions :=
      map_congr_of _ _ _ (fun q _ => migrateQuestion_idem q)
    simp only [migrateUserDocument, List.map_map]
    rw [h2]
  · intro q hq
    simp only [migrateUserDocument, List.mem_map] at hq
    obtain ⟨p, _, rfl⟩ := hq
    exact isQuestionV1_migrateQuestion p

/-- C3 witness: applied to a one-question current-shaped document. -/
theorem migration_idempotent_witness :
    migrateUserDocument
      { questions := [{ id := "1", status := Status.asked, question := "Q?",
                        answers := some [], answer := Option.none, isCorrect := Option.none,
                        mistakes := Option.none, explanation := Option.none,
                        questionExplanation := Option.none, contextConversation := Option.none,
                        askedAt := Option.none, answeredAt := Option.none }],
        dailyQuestions := [], level := "a0" } =
      { questions := [{ id := "1", status := Status.asked, question := "Q?",
                        answers := some [], answer := Option.none, isCorrect := Option.none,
                        mistakes := Option.none, explanation := Option.none,
                        questionExplanation := Option.none, contextConversation := Option.none,
                        askedAt := Option.none, answeredAt := Option.none }],
        dailyQuestions := [], level := "a0" } :=
  (migration_idempotent _).1 (fun q hq => by
    simp only [List.mem_singleton] at hq
    subst hq
    rfl)

/-- C10.  Migration tests the legacy `answer`/`answeredAt` fields by
truthiness, not presence: a legacy entry in which either field is present but
equal to the empty string migrates to an empty `answers` sequence, and all the
legacy single-answer fields are discarded. -/
theorem migrate_empty_string_discards (q : StoredQuestion)
    (hv1 : isQuestionV1 q = true)
    (h : q.answer = some "" ∨ q.answeredAt = some "") :
    (migrateQuestion q).answers = some [] ∧
    (migrateQuestion q).answer = Option.none ∧
    (migrateQuestion q).isCorrect = Option.none ∧
    (migrateQuestion q).mistakes = Option.none ∧
    (migrateQuestion q).explanation = Option.none ∧
    (migrateQuestion q).answeredAt = Option.none := by
  have hcond : (strTruthy q.answer && strTruthy q.answeredAt) = false := by
    rcases h with h | h <;> simp [strTruthy, h]
  unfold migrateQuestion
  simp [hv1, hcond]

/-- C10 witness: a legacy entry with `answer=""` but `answeredAt`, `isCorrect`,
`mistakes`, `explanation` all present migrates to empty `answers` with every
legacy field dropped. -/
theorem migrate_empty_string_discards_witness :
    (migrateQuestion
      { id := "1", status := Status.answered, question := "Q?",
        answers := Option.none, answer := some "", isCorrect := some true,
        mistakes := some "m", explanation := some "e",
        questionExplanation := Option.none, contextConversation := Option.none,
        askedAt := Option.none, answeredAt := some "T" }).answers = some [] ∧
    (migrateQuestion
      { id := "1", status := Status.answered, question := "Q?",
        answers := Option.none, answer := some "", isCorrect := some true,
        mistakes := some "m", explanation := some "e",
        questionExplanation := Option.none, contextConversation := Option.none,
        askedAt := Option.none, answeredAt := some "T" }).isCorrect = Option.none :=
  ⟨(migrate_empty_string_discards _ (by decide) (Or.inl rfl)).1,
   (migrate_empty_string_discards _ (by decide) (Or.inl rfl)).2.2.1⟩

/-- C5.  Self-healing reads: `getUserDocument` runs the migration write-back
exactly when the stored document contains a legacy entry; with no legacy entry
the store is left untouched; and after a write-back the stored questions
contain no legacy entries, so the next read performs no write-back. -/
theorem getUserDocument_selfheal (raw : UserDocument) :
    ((getUserDocument (some raw)).wroteBack = raw.questions.any (fun q => isQuestionV1 q)) ∧
    (raw.questions.any (fun q => isQuestionV1 q) = false →
      (getUserDocument (some raw)).store = some raw) ∧
    (raw.questions.any (fun q => isQuestionV1 q) = true →
      (getUserDocument (some raw)).store
        = some { raw with questions := (migrateUserDocument raw).questions } ∧
      ∀ s, (getUserDocument (some raw)).store = some s →
        (∀ q ∈ s.questions, isQuestionV1 q = false) ∧
        (getUserDocument (some s)).wroteBack = false) := by
  by_cases h : raw.questions.any (fun q => isQuestionV1 q) = true
  · refine ⟨?_, ?_, ?_⟩
    · simp [getUserDocument, h]
    · intro hfalse
      rw [hfalse] at h
      exact absurd h (by simp)
    · intro _
      constructor
      · simp [getUserDocument, h]
      · intro s hs
        simp only [getUserDocument, h, if_pos] at hs
        have hsq : s.questions = (migrateUserDocument raw).questions := by
          injection hs with hs
          rw [← hs]
        have hall : ∀ q ∈ s.questions, isQuestionV1 q = false := by
          intro q hq
          rw [hsq] at hq
          simp only [migrateUserDocument, List.mem_map] at hq
          obtain ⟨p, _, rfl⟩ := hq
          exact isQuestionV1_migrateQuestion p
        refine ⟨hall, ?_⟩
        have hany : s.questions.any (fun q => isQuestionV1 q) = false := by
          simp only [List.any_eq_false]
          intro q hq
          simp [hall q hq]
        simp [getUserDocument, hany]
  · have hfalse : raw.questions.any (fun q => isQuestionV1 q) = false := by
      revert h
      cases raw.questions.any (fun q => isQuestionV1 q) <;> simp
    refine ⟨?_, ?_, ?_⟩
    · simp [getUserDocument, hfalse]
    · intro _
      simp [getUserDocument, hfalse]
    · intro htrue
      rw [htrue] at hfalse
      exact absurd hfalse (by simp)

/-- C5 witness: a document with one legacy entry writes back a current-shaped
sequence; one with only current entries leaves the store unchanged. -/
theorem getUserDocument_selfheal_witness :
    (getUserDocument (some
      { questions := [{ id := "1", status := Status.asked, question := "Q?",
                        answers := Option.none, answer := Option.none, isCorrect := Option.none,
                        mistakes := Option.none, explanation := Option.none,
                        questionExplanation := Option.none, contextConversation := Option.none,
                        askedAt := Option.none, answeredAt := Option.none }],
        dailyQuestions := [], level := "a0" })).wroteBack = true ∧
    (getUserDocument (some initialDoc)).store = some initialDoc :=
  ⟨by
    have h := (getUserDocument_selfheal
      { questions := [{ id := "1", status := Status.asked, question := "Q?",
                        answers := Option.none, answer := Option.none, isCorrect := Option.none,
                        mistakes := Option.none, explanation := Option.none,
                        questionExplanation := Option.none, contextConversation := Option.none,
                        askedAt := Option.none, answeredAt := Option.none }],
        dailyQuestions := [], level := "a0" }).1
    simpa using h,
   (getUserDocument_selfheal initialDoc).2.1 (by decide)⟩

/-- C9.  `getUserDocument` never resolves to null: for every store state the
result is present; an absent store yields (and persists) the empty initial
document (`questions = []`, `dailyQuestions = {}`, `level = "a0"`); and
consequently `addQuestion` never takes its null-guard branch — it always
appends the question to the loaded document's sequence. -/
theorem getUserDocument_never_null (store : Option UserDocument) :
    (getUserDocument store).result.isSome = true ∧
    (store = Option.none →
      (getUserDocument store).result = some initialDoc ∧
      (getUserDocument store).store = some initialDoc) ∧
    (∀ question : StoredQuestion, ∃ s d,
      (getUserDocument store).result = some d ∧
      addQuestionStore store question = some s ∧
      s.questions = d.questions ++ [question]) := by
  cases store with
  | none =>
    refine ⟨by simp [getUserDocument], fun _ => ⟨rfl, rfl⟩, fun question => ?_⟩
    exact ⟨{ initialDoc with questions := initialDoc.questions ++ [question] },
           initialDoc, rfl, rfl, rfl⟩
  | some raw =>
    by_cases h : raw.questions.any (fun q => isQuestionV1 q) = true
    · refine ⟨?_, ?_, ?_⟩
      · simp [getUserDocument, h]
      · intro hc
        exact absurd hc (by simp)
      · intro question
        refine ⟨{ raw with questions := (migrateUserDocument raw).questions ++ [question] },
                migrateUserDocument raw, by simp [getUserDocument, h], ?_, rfl⟩
        simp [addQuestionStore, getUserDocument, h]
    · have hfalse : raw.questions.any (fun q => isQuestionV1 q) = false := by
        revert h
        cases raw.questions.any (fun q => isQuestionV1 q) <;> simp
      refine ⟨?_, ?_, ?_⟩
      · simp [getUserDocument, hfalse]
      · intro hc
        exact absurd hc (by simp)
      · intro question
        refine ⟨{ raw with questions := (migrateUserDocument raw).questions ++ [question] },
                migrateUserDocument raw, by simp [getUserDocument, hfalse], ?_, rfl⟩
        simp [addQuestionStore, getUserDocument, hfalse]

/-- C9 witness: on an absent store the read resolves to the initial document,
and `addQuestion` on the empty store appends to the freshly created document. -/
theorem getUserDocument_never_null_witness :
    (getUserDocument Option.none).result = some initialDoc ∧
    (∃ s d, (getUserDocument Option.none).result = some d ∧
      addQuestionStore Option.none
        { id := "1", status := Status.asked, question := "Q?",
          answers := some [], answer := Option.none, isCorrect := Option.none,
          mistakes := Option.none, explanation := Option.none,
          questionExplanation := Option.none, contextConversation := Option.none,
          askedAt := Option.none, answeredAt := Option.none } = some s ∧
      s.questions = d.questions ++
        [{ id := "1", status := Status.asked, question := "Q?",
           answers := some [], answer := Option.none, isCorrect := Option.none,
           mistakes := Option.none, explanation := Option.none,
           questionExplanation := Option.none, contextConversation := Option.none,
           askedAt := Option.none, answeredAt := Option.none }]) :=
  ⟨((getUserDocument_never_null Option.none).2.1 rfl).1,
   (getUserDocument_never_null Option.none).2.2 _⟩

/-! ### Helper lemmas about the daily ledger -/

theorem lookupDay_setDay (dq : DailyQuestions) (d : String) (r : DailyRecord) :
    lookupDay (setDay dq d r) d = some r := by
  induction dq with
  | nil => simp [setDay, lookupDay]
  | cons e rest ih =>
    by_cases h : (e.1 == d) = true
    · simp [setDay, h, lookupDay]
    · have hb : (e.1 == d) = false := by
        revert h
        cases e.1 == d <;> simp
      have hstep : setDay (e :: rest) d r = e :: setDay rest d r := by
        simp [setDay, hb]
      rw [hstep]
      unfold lookupDay
      rw [List.find?_cons_of_neg _ (by simp [hb])]
      exact ih

theorem mem_setDay {dq : DailyQuestions} {d : String} {r : DailyRecord} {e : String × DailyRecord}
    (h : e ∈ setDay dq d r) : e = (d, r) ∨ e ∈ dq := by
  induction dq with
  | nil => simpa [setDay] using h
  | cons e0 rest ih =>
    by_cases hb : (e0.1 == d) = true
    · simp only [setDay, hb, if_true, List.mem_cons] at h
      rcases h with h | h
      · exact Or.inl h
      · exact Or.inr (by simp [h])
    · have hb' : (e0.1 == d) = false := by
        revert hb
        cases e0.1 == d <;> simp
      simp only [setDay, hb', Bool.false_eq_true, if_false, List.mem_cons] at h
      rcases h with h | h
      · exact Or.inr (by simp [h])
      · rcases ih h with h | h
        · exact Or.inl h
        · exact Or.inr (by simp [h])

theorem mem_of_lookupDay {dq : DailyQuestions} {d : String} {r : DailyRecord}
    (h : lookupDay dq d = some r) : ∃ k, (k, r) ∈ dq := by
  unfold lookupDay at h
  cases hf : dq.find? (fun e => e.1 == d) with
  | none => rw [hf] at h; cases h
  | some e =>
    rw [hf] at h
    refine ⟨e.1, ?_⟩
    have hm := List.mem_of_find?_eq_some hf
    have : e.2 = r := by simpa using h
    rw [← this]
    simpa using hm

/-- C7.  Daily-ledger deduplication: marking the same question id as asked
twice on the same date yields `askedQuestionIds` containing the id exactly
once (from any starting record holding the id at most once); and both
`markQuestionAsked` and `markQuestionAnswered` insert only on non-membership,
preserving the no-duplicates invariant of every per-date id list. -/
theorem markQuestion_dedup (doc : UserDocument) (today questionId : String) :
    (((lookupDay doc.dailyQuestions today).getD
        { askedQuestionIds := [], answeredQuestionIds := [] }).askedQuestionIds.count questionId ≤ 1 →
      ((lookupDay (markQuestionAsked (markQuestionAsked doc today questionId) today questionId).dailyQuestions
          today).getD
        { askedQuestionIds := [], answeredQuestionIds := [] }).askedQuestionIds.count questionId = 1) ∧
    ((∀ e ∈ doc.dailyQuestions, e.2.askedQuestionIds.Nodup) →
      ∀ e ∈ (markQuestionAsked doc today questionId).dailyQuestions, e.2.askedQuestionIds.Nodup) ∧
    ((∀ e ∈ doc.dailyQuestions, e.2.answeredQuestionIds.Nodup) →
      ∀ e ∈ (markQuestionAnswered doc today questionId).dailyQuestions, e.2.answeredQuestionIds.Nodup) := by
  set r0 := (lookupDay doc.dailyQuestions today).getD
      { askedQuestionIds := [], answeredQuestionIds := [] } with hr0
  have hr0nodup : (∀ e ∈ doc.dailyQuestions, e.2.askedQuestionIds.Nodup) →
      r0.askedQuestionIds.Nodup := by
    intro hinv
    cases hl : lookupDay doc.dailyQuestions today with
    | none => simp [hr0, hl, List.Nodup]
    | some rec =>
      obtain ⟨k, hk⟩ := mem_of_lookupDay hl
      have := hinv (k, rec) hk
      simpa [hr0, hl] using this
  have hs0nodup : (∀ e ∈ doc.dailyQuestions, e.2.answeredQuestionIds.Nodup) →
      r0.answeredQuestionIds.Nodup := by
    intro hinv
    cases hl : lookupDay doc.dailyQuestions today with
    | none => simp [hr0, hl, List.Nodup]
    | some rec =>
      obtain ⟨k, hk⟩ := mem_of_lookupDay hl
      have := hinv (k, rec) hk
      simpa [hr0, hl] using this
  refine ⟨?_, ?_, ?_⟩
  · intro hcount
    by_cases hmem : questionId ∈ r0.askedQuestionIds
    · have hcount1 : r0.askedQuestionIds.count questionId = 1 :=
        Nat.le_antisymm hcount (List.count_pos_iff.mpr hmem)
      simp [markQuestionAsked, lookupDay_setDay, ← hr0, hmem, hcount1]
    · simp [markQuestionAsked, lookupDay_setDay, ← hr0, hmem,
        List.count_eq_zero_of_not_mem hmem]
  · intro hinv e he
    have hmem := mem_setDay (by simpa [markQuestionAsked, ← hr0] using he)
    rcases hmem with hmem | hmem
    · by_cases hq : questionId ∈ r0.askedQuestionIds
      · rw [hmem]
        simpa [hq] using hr0nodup hinv
      · rw [hmem]
        simp [hq, List.nodup_append, hr0nodup hinv]
    · exact hinv e hmem
  · intro hinv e he
    have hmem := mem_setDay (by simpa [markQuestionAnswered, ← hr0] using he)
    rcases hmem with hmem | hmem
    · by_cases hq : questionId ∈ r0.answeredQuestionIds
      · rw [hmem]
        simpa [hq] using hs0nodup hinv
      · rw [hmem]
        simp [hq, List.nodup_append, hs0nodup hinv]
    · exact hinv e hmem

/-- C7 witness: marking question "1" asked twice on the same date, starting
from the empty document, leaves `askedQuestionIds = ["1"]` — the id exactly
once — and the no-duplicates invariants hold. -/
theorem markQuestion_dedup_witness :
    ((lookupDay (markQuestionAsked (markQuestionAsked initialDoc "2026-10-12" "1") "2026-10-12" "1").dailyQuestions
        "2026-10-12").getD
      { askedQuestionIds := [], answeredQuestionIds := [] }).askedQuestionIds.count "1" = 1 ∧
    (∀ e ∈ (markQuestionAsked initialDoc "2026-10-12" "1").dailyQuestions, e.2.askedQuestionIds.Nodup) :=
  ⟨(markQuestion_dedup initialDoc "2026-10-12" "1").1 (by decide),
   (markQuestion_dedup initialDoc "2026-10-12" "1").2.1 (by intro e he; cases he)⟩

/-- C8.  Frame conditions of `updateQuestion`: the rewritten sequence has the
same length, every position holding a question with a different id is
unchanged, an id that matches no question leaves the sequence unchanged, the
rest of the document (`dailyQuestions`, `level`) is untouched, and merging the
all-absent update (every field `undefined`, hence dropped by
`removeUndefined`) changes nothing. -/
theorem updateQuestion_frame (doc : UserDocument) (questionId : String) (u : QuestionUpdate) :
    ((updateQuestion doc questionId u).questions.length = doc.questions.length) ∧
    (∀ (i : Nat) (q : StoredQuestion), doc.questions[i]? = some q → q.id ≠ questionId →
      (updateQuestion doc questionId u).questions[i]? = some q) ∧
    ((∀ q ∈ doc.questions, q.id ≠ questionId) →
      (updateQuestion doc questionId u).questions = doc.questions) ∧
    ((updateQuestion doc questionId u).dailyQuestions = doc.dailyQuestions ∧
     (updateQuestion doc questionId u).level = doc.level) ∧
    (∀ q : StoredQuestion, applyUpdate q emptyUpdate = q) := by
  refine ⟨?_, ?_, ?_, ⟨rfl, rfl⟩, fun q => rfl⟩
  · simp [updateQuestion]
  · intro i q hi hne
    simp only [updateQuestion, List.getElem?_map, hi, Option.map_some']
    congr 1
    split
    · next hcond => exact absurd (by simpa using hcond) hne
    · rfl
  · intro hall
    simp only [updateQuestion]
    apply map_eq_self_of
    intro q hq
    have hb : (q.id == questionId) = false := by
      simp [hall q hq]
    simp [hb]

/-- C8 witness: on a two-question document, updating question "2" leaves the
question at position 0 (id "1") untouched, preserves the length, and updating
a missing id "9" leaves the sequence unchanged. -/
theorem updateQuestion_frame_witness :
    (updateQuestion
        { questions :=
            [{ id := "1", status := Status.asked, question := "A?",
               answers := some [], answer := Option.none, isCorrect := Option.none,
               mistakes := Option.none, explanation := Option.none,
               questionExplanation := Option.none, contextConversation := Option.none,
               askedAt := Option.none, answeredAt := Option.none },
             { id := "2", status := Status.asked, question := "B?",
               answers := some [], answer := Option.none, isCorrect := Option.none,
               mistakes := Option.none, explanation := Option.none,
               questionExplanation := Option.none, contextConversation := Option.none,
               askedAt := Option.none, answeredAt := Option.none }],
          dailyQuestions := [], level := "a0" }
        "2"
        { id := Option.none, status := some Status.answered, question := Option.none,
          answers := Option.none, questionExplanation := Option.none,
          contextConversation := Option.none, askedAt := Option.none }).questions[0]? =
      some { id := "1", status := Status.asked, question := "A?",
             answers := some [], answer := Option.none, isCorrect := Option.none,
             mistakes := Option.none, explanation := Option.none,
             questionExplanation := Option.none, contextConversation := Option.none,
             askedAt := Option.none, answeredAt := Option.none } ∧
    (updateQuestion
        { questions :=
            [{ id := "1", status := Status.asked, question := "A?",
               answers := some [], answer := Option.none, isCorrect := Option.none,
               mistakes := Option.none, explanation := Option.none,
               questionExplanation := Option.none, contextConversation := Option.none,
               askedAt := Option.none, answeredAt := Option.none }],
          dailyQuestions := [], level := "a0" }
        "9"
        { id := Option.none, status := some Status.answered, question := Option.none,
          answers := Option.none, questionExplanation := Option.none,
          contextConversation := Option.none, askedAt := Option.none }).questions =
      [{ id := "1", status := Status.asked, question := "A?",
         answers := some [], answer := Option.none, isCorrect := Option.none,
         mistakes := Option.none, explanation := Option.none,
         questionExplanation := Option.none, contextConversation := Option.none,
         askedAt := Option.none, answeredAt := Option.none }] :=
  ⟨(updateQuestion_frame _ "2" _).2.1 0 _ rfl (by decide),
   (updateQuestion_frame _ "9" _).2.2.1 (by
    intro q hq
    simp only [List.mem_singleton] at hq
    subst hq
    decide)⟩

/-! ### Helper lemmas about Submit-Answer -/

theorem applyUpdate_id_of_none {q : StoredQuestion} {u : QuestionUpdate}
    (hu : u.id = Option.none) : (applyUpdate q u).id = q.id := by
  simp [applyUpdate, hu]

theorem find?_map_update (l : List StoredQuestion) (questionId : String) (u : QuestionUpdate)
    (hu : u.id = Option.none) :
    (l.map (fun q => if q.id == questionId then applyUpdate q u else q)).find?
        (fun p => p.id == questionId)
      = (l.find? (fun p => p.id == questionId)).map (fun q => applyUpdate q u) := by
  induction l with
  | nil => rfl
  | cons a t ih =>
    by_cases h : (a.id == questionId) = true
    · have hid : ((applyUpdate a u).id == questionId) = true := by
        rw [applyUpdate_id_of_none hu]
        exact h
      have h1 : List.find? (fun p => p.id == questionId)
          (applyUpdate a u :: t.map (fun q => if q.id == questionId then applyUpdate q u else q))
          = some (applyUpdate a u) := List.find?_cons_of_pos _ hid
      have h2 : List.find? (fun p => p.id == questionId) (a :: t) = some a :=
        List.find?_cons_of_pos _ h
      simp only [List.map_cons, h, if_true, h1, h2, Option.map_some']
    · have h1 : List.find? (fun p => p.id == questionId)
          (a :: t.map (fun q => if q.id == questionId then applyUpdate q u else q))
          = List.find? (fun p => p.id == questionId)
              (t.map (fun q => if q.id == questionId then applyUpdate q u else q)) :=
        List.find?_cons_of_neg _ h
      have h2 : List.find? (fun p => p.id == questionId) (a :: t)
          = List.find? (fun p => p.id == questionId) t :=
        List.find?_cons_of_neg _ h
      simp only [List.map_cons, h, Bool.false_eq_true, if_false, h1, h2]
      exact ih

theorem markQuestionAnswered_questions (doc : UserDocument) (today questionId : String) :
    (markQuestionAnswered doc today questionId).questions = doc.questions := rfl

theorem canSubmitAnswer_of_empty {q : StoredQuestion} (h : q.answers.getD [] = []) :
    canSubmitAnswer q = true := by
  unfold canSubmitAnswer showFirstAnswerForm
  cases hans : q.answers with
  | none => simp
  | some l =>
    rw [hans] at h
    simp only [Option.getD_some] at h
    simp [h]

theorem canSubmitAnswer_of_no_correct {q : StoredQuestion}
    (h : (q.answers.getD []).any (fun a => a.isCorrect) = false) :
    canSubmitAnswer q = true := by
  unfold canSubmitAnswer showFirstAnswerForm showTryAgainForm
  cases hans : q.answers with
  | none => simp
  | some l =>
    cases l with
    | nil => simp
    | cons a t =>
      rw [hans] at h
      simp only [Option.getD_some] at h
      simp [h]

/-- C1.  Correctness lock: once some answer of a question has
`isCorrect = true`, a further Submit-Answer call for that question is a
no-op — the external validation service is not called and the document
(questions, status, daily ledger) is returned unchanged. -/
theorem submit_correct_lock (doc : UserDocument) (questionId answerText : String)
    (validation : ValidationResponse) (answeredAt today : String) (q : StoredQuestion)
    (hfind : doc.questions.find? (fun p => p.id == questionId) = some q)
    (hcorrect : (q.answers.getD []).any (fun a => a.isCorrect) = true) :
    submitAnswer doc questionId answerText validation answeredAt today
      = { doc := doc, validationCalled := false } := by
  have hguard : canSubmitAnswer q = false := by
    unfold canSubmitAnswer showFirstAnswerForm showTryAgainForm
    cases hans : q.answers with
    | none => rw [hans] at hcorrect; simp at hcorrect
    | some l =>
      cases l with
      | nil => rw [hans] at hcorrect; simp at hcorrect
      | cons a t =>
        rw [hans] at hcorrect
        simp only [Option.getD_some] at hcorrect
        simp [hcorrect]
  unfold submitAnswer
  rw [hfind]
  simp [hguard]

/-- C1 witness: on a document whose question "1" already holds a correct
answer, Submit-Answer changes nothing and makes no validation call. -/
theorem submit_correct_lock_witness :
    submitAnswer
      { questions :=
          [{ id := "1", status := Status.answered, question := "Q?",
             answers := some [{ answer := "goed", isCorrect := true, mistakes := "none",
                                explanation := "", answeredAt := "T" }],
             answer := Option.none, isCorrect := Option.none,
             mistakes := Option.none, explanation := Option.none,
             questionExplanation := Option.none, contextConversation := Option.none,
             askedAt := Option.none, answeredAt := Option.none }],
        dailyQuestions := [], level := "a0" }
      "1" "nog een antwoord" { correct := false, mistakes := "m", explanation := "e" }
      "T2" "2026-10-12"
      = { doc :=
            { questions :=
                [{ id := "1", status := Status.answered, question := "Q?",
                   answers := some [{ answer := "goed", isCorrect := true, mistakes := "none",
                                      explanation := "", answeredAt := "T" }],
                   answer := Option.none, isCorrect := Option.none,
                   mistakes := Option.none, explanation := Option.none,
                   questionExplanation := Option.none, contextConversation := Option.none,
                   askedAt := Option.none, answeredAt := Option.none }],
              dailyQuestions := [], level := "a0" },
          validationCalled := false } :=
  submit_correct_lock
    { questions :=
        [{ id := "1", status := Status.answered, question := "Q?",
           answers := some [{ answer := "goed", isCorrect := true, mistakes := "none",
                              explanation := "", answeredAt := "T" }],
           answer := Option.none, isCorrect := Option.none,
           mistakes := Option.none, explanation := Option.none,
           questionExplanation := Option.none, contextConversation := Option.none,
           askedAt := Option.none, answeredAt := Option.none }],
      dailyQuestions := [], level := "a0" }
    "1" "nog een antwoord" { correct := false, mistakes := "m", explanation := "e" }
    "T2" "2026-10-12"
    { id := "1", status := Status.answered, question := "Q?",
      answers := some [{ answer := "goed", isCorrect := true, mistakes := "none",
                         explanation := "", answeredAt := "T" }],
      answer := Option.none, isCorrect := Option.none,
      mistakes := Option.none, explanation := Option.none,
      questionExplanation := Option.none, contextConversation := Option.none,
      askedAt := Option.none, answeredAt := Option.none }
    (by decide) (by decide)

/-- C6.  First-answer transition and append-only answers: an accepted
Submit-Answer call on a question with `status = asked` and no answers sets
`status` to `answered` and appends exactly one answer record; an accepted call
on a question that already has answers (and none correct) appends one record
and leaves `status` unchanged, the prior entries preserved in order as a
prefix. -/
theorem submit_transition_append (doc : UserDocument) (questionId answerText : String)
    (validation : ValidationResponse) (answeredAt today : String) (q : StoredQuestion)
    (hfind : doc.questions.find? (fun p => p.id == questionId) = some q) :
    ((q.status = Status.asked ∧ q.answers.getD [] = []) →
      (submitAnswer doc questionId answerText validation answeredAt today).validationCalled = true ∧
      ∃ qq, (submitAnswer doc questionId answerText validation answeredAt today).doc.questions.find?
              (fun p => p.id == questionId) = some qq ∧
        qq.status = Status.answered ∧
        qq.answers = some [{ answer := answerText, isCorrect := validation.correct,
                             mistakes := validation.mistakes, explanation := validation.explanation,
                             answeredAt := answeredAt }]) ∧
    ((q.answers.getD [] ≠ [] ∧ (q.answers.getD []).any (fun a => a.isCorrect) = false) →
      (submitAnswer doc questionId answerText validation answeredAt today).validationCalled = true ∧
      ∃ qq, (submitAnswer doc questionId answerText validation answeredAt today).doc.questions.find?
              (fun p => p.id == questionId) = some qq ∧
        qq.status = q.status ∧
        qq.answers = some (q.answers.getD [] ++
          [{ answer := answerText, isCorrect := validation.correct,
             mistakes := validation.mistakes, explanation := validation.explanation,
             answeredAt := answeredAt }])) := by
  constructor
  · rintro ⟨hstatus, hempty⟩
    have hguard := canSubmitAnswer_of_empty hempty
    have hfind2 := find?_map_update doc.questions questionId
      { id := Option.none
        status := some (if (q.answers.getD []).length == 0 then Status.answered else q.status)
        question := Option.none
        answers := some (q.answers.getD [] ++
          [{ answer := answerText, isCorrect := validation.correct,
             mistakes := validation.mistakes, explanation := validation.explanation,
             answeredAt := answeredAt }])
        questionExplanation := Option.none
        contextConversation := Option.none
        askedAt := Option.none } rfl
    rw [hfind] at hfind2
    unfold submitAnswer
    rw [hfind]
    simp only [hguard, Bool.true_eq_false, if_false, hempty, List.length_nil,
      beq_self_eq_true, if_true, List.nil_append]
    refine ⟨by trivial, ?_⟩
    refine ⟨applyUpdate q
      { id := Option.none
        status := some Status.answered
        question := Option.none
        answers := some [{ answer := answerText, isCorrect := validation.correct,
                           mistakes := validation.mistakes, explanation := validation.explanation,
                           answeredAt := answeredAt }]
        questionExplanation := Option.none
        contextConversation := Option.none
        askedAt := Option.none }, ?_, rfl, rfl⟩
    rw [markQuestionAnswered_questions]
    simp only [updateQuestion]
    rw [hempty] at hfind2
    simpa using hfind2
  · rintro ⟨hnonempty, hnocorrect⟩
    have hguard := canSubmitAnswer_of_no_correct hnocorrect
    have hlen : ((q.answers.getD []).length == 0) = false := by
      cases hl : q.answers.getD [] with
      | nil => exact absurd hl hnonempty
      | cons a t => simp
    have hfind2 := find?_map_update doc.questions questionId
      { id := Option.none
        status := some (if (q.answers.getD []).length == 0 then Status.answered else q.status)
        question := Option.none
        answers := some (q.answers.getD [] ++
          [{ answer := answerText, isCorrect := validation.correct,
             mistakes := validation.mistakes, explanation := validation.explanation,
             answeredAt := answeredAt }])
        questionExplanation := Option.none
        contextConversation := Option.none
        askedAt := Option.none } rfl
    rw [hfind] at hfind2
    unfold submitAnswer
    rw [hfind]
    simp only [hguard, Bool.true_eq_false, if_false, hlen]
    refine ⟨by trivial, ?_⟩
    refine ⟨applyUpdate q
      { id := Option.none
        status := some q.status
        question := Option.none
        answers := some (q.answers.getD [] ++
          [{ answer := answerText, isCorrect := validation.correct,
             mistakes := validation.mistakes, explanation := validation.explanation,
             answeredAt := answeredAt }])
        questionExplanation := Option.none
        contextConversation := Option.none
        askedAt := Option.none }, ?_, rfl, rfl⟩
    simp only [updateQuestion]
    rw [hlen] at hfind2
    simpa using hfind2

/-- C6 witness: a question with `status = asked` and no answers transitions to
`answered` with exactly one answer after one accepted Submit-Answer call. -/
theorem submit_transition_append_witness :
    (submitAnswer
      { questions :=
          [{ id := "1", status := Status.asked, question := "Q?",
             answers := some [], answer := Option.none, isCorrect := Option.none,
             mistakes := Option.none, explanation := Option.none,
             questionExplanation := Option.none, contextConversation := Option.none,
             askedAt := Option.none, answeredAt := Option.none }],
        dailyQuestions := [], level := "a0" }
      "1" "Ik ga naar huis" { correct := true, mistakes := "none", explanation := "ok" }
      "T1" "2026-10-12").validationCalled = true ∧
    ∃ qq, (submitAnswer
      { questions :=
          [{ id := "1", status := Status.asked, question := "Q?",
             answers := some [], answer := Option.none, isCorrect := Option.none,
             mistakes := Option.none, explanation := Option.none,
             questionExplanation := Option.none, contextConversation := Option.none,
             askedAt := Option.none, answeredAt := Option.none }],
        dailyQuestions := [], level := "a0" }
      "1" "Ik ga naar huis" { correct := true, mistakes := "none", explanation := "ok" }
      "T1" "2026-10-12").doc.questions.find? (fun p => p.id == "1") = some qq ∧
      qq.status = Status.answered ∧
      qq.answers = some [{ answer := "Ik ga naar huis", isCorrect := true,
                           mistakes := "none", explanation := "ok", answeredAt := "T1" }] :=
  (submit_transition_append
    { questions :=
        [{ id := "1", status := Status.asked, question := "Q?",
           answers := some [], answer := Option.none, isCorrect := Option.none,
           mistakes := Option.none, explanation := Option.none,
           questionExplanation := Option.none, contextConversation := Option.none,
           askedAt := Option.none, answeredAt := Option.none }],
      dailyQuestions := [], level := "a0" }
    "1" "Ik ga naar huis" { correct := true, mistakes := "none", explanation := "ok" }
    "T1" "2026-10-12"
    { id := "1", status := Status.asked, question := "Q?",
      answers := some [], answer := Option.none, isCorrect := Option.none,
      mistakes := Option.none, explanation := Option.none,
      questionExplanation := Option.none, contextConversation := Option.none,
      askedAt := Option.none, answeredAt := Option.none }
    (by decide)).1 ⟨rfl, rfl⟩

/-! ### The generate-question history sort -/

theorem status_beq_iff (s t : Status) : (s == t) = true ↔ s = t := by
  cases s <;> cases t <;> decide

/-- C4 counterexample: an answered question with an empty `answers` sequence
makes the sort-key computation of the `generate-question` handler fail (the
JavaScript code indexes the last element of the empty array and dereferences
`undefined`), so the pipeline fails instead of sorting the question first with
a zero-timestamp default. -/
theorem generate_sort_counterexample :
    conversationHistoryQuestions (fun _ => 0)
      [{ id := "2", status := Status.answered, question := "Q?",
         answers := some [], answer := Option.none, isCorrect := Option.none,
         mistakes := Option.none, explanation := Option.none,
         questionExplanation := Option.none, contextConversation := Option.none,
         askedAt := Option.none, answeredAt := Option.none }] = Option.none := by
  rfl

/-- C4 (amended).  When every answered question in the input has a nonempty
`answers` sequence, the history sort succeeds and is total: it returns a
permutation of the answered questions ordered by the latest answer's
timestamp, where a latest answer whose timestamp is falsy (empty) uses the
zero default; a question with an empty `answers` sequence instead makes the
sort-key computation fail. -/
theorem generate_sort_amended (getTime : String → Int) (qs : List StoredQuestion)
    (h : ∀ q ∈ qs, q.status = Status.answered → q.answers.getD [] ≠ []) :
    ∃ l, conversationHistoryQuestions getTime qs = some l ∧
      l.Perm (qs.filter (fun q => q.status == Status.answered)) ∧
      l.Pairwise (fun a b =>
        (lastAnswerTime getTime a).getD 0 ≤ (lastAnswerTime getTime b).getD 0) ∧
      (∀ (q : StoredQuestion) (a : Answer), (q.answers.getD []).getLast? = some a →
        a.answeredAt = "" → lastAnswerTime getTime q = some 0) := by
  have hall : (qs.filter (fun q => q.status == Status.answered)).all
      (fun q => (lastAnswerTime getTime q).isSome) = true := by
    rw [List.all_eq_true]
    intro q hq
    rw [List.mem_filter] at hq
    have hne : q.answers.getD [] ≠ [] :=
      h q hq.1 ((status_beq_iff _ _).mp hq.2)
    have hlast : (q.answers.getD []).getLast?.isSome := List.getLast?_isSome.mpr hne
    cases hl : (q.answers.getD []).getLast? with
    | none => rw [hl] at hlast; cases hlast
    | some a => simp [lastAnswerTime, hl]
  refine ⟨(qs.filter (fun q => q.status == Status.answered)).mergeSort
      (fun a b => (lastAnswerTime getTime a).getD 0 ≤ (lastAnswerTime getTime b).getD 0),
    ?_, ?_, ?_, ?_⟩
  · unfold conversationHistoryQuestions
    rw [if_pos hall]
  · exact List.mergeSort_perm _ _
  · have hp := @List.sorted_mergeSort _
      (fun a b => decide ((lastAnswerTime getTime a).getD 0 ≤ (lastAnswerTime getTime b).getD 0))
      (fun a b c hab hbc => by
        simp only [decide_eq_true_iff] at *
        exact le_trans hab hbc)
      (fun a b => by
        simp only [Bool.or_eq_true, decide_eq_true_iff]
        exact Int.le_total _ _)
      (qs.filter (fun q => q.status == Status.answered))
    exact hp.imp (fun hab => by simpa using hab)
  · intro q a hlast ha
    simp [lastAnswerTime, hlast, ha]

/-- Sample answered questions used to exercise the history sort: one with a
dated latest answer, one whose latest answer has an empty (falsy) timestamp. -/
def sampleDated : StoredQuestion :=
  { id := "1", status := Status.answered, question := "A?",
    answers := some [{ answer := "x", isCorrect := true, mistakes := "none",
                       explanation := "", answeredAt := "2026-01-02" }],
    answer := Option.none, isCorrect := Option.none,
    mistakes := Option.none, explanation := Option.none,
    questionExplanation := Option.none, contextConversation := Option.none,
    askedAt := Option.none, answeredAt := Option.none }

/-- Companion sample question whose latest answer has an empty timestamp. -/
def sampleUndated : StoredQuestion :=
  { id := "2", status := Status.answered, question := "B?",
    answers := some [{ answer := "y", isCorrect := false, mistakes := "m",
                       explanation := "e", answeredAt := "" }],
    answer := Option.none, isCorrect := Option.none,
    mistakes := Option.none, explanation := Option.none,
    questionExplanation := Option.none, contextConversation := Option.none,
    askedAt := Option.none, answeredAt := Option.none }

/-- C4 witness for the amended theorem: two answered questions, each with one
answer record, sort successfully. -/
theorem generate_sort_amended_witness :
    ∃ l, conversationHistoryQuestions (fun s => (s.length : Int)) [sampleDated, sampleUndated] = some l ∧
      l.Perm ([sampleDated, sampleUndated].filter (fun q => q.status == Status.answered)) ∧
      l.Pairwise (fun a b =>
        (lastAnswerTime (fun s => (s.length : Int)) a).getD 0 ≤
          (lastAnswerTime (fun s => (s.length : Int)) b).getD 0) ∧
      (∀ (q : StoredQuestion) (a : Answer), (q.answers.getD []).getLast? = some a →
        a.answeredAt = "" → lastAnswerTime (fun s => (s.length : Int)) q = some 0) :=
  generate_sort_amended (fun s => (s.length : Int)) [sampleDated, sampleUndated] (by
    intro q hq hs
    simp only [List.mem_cons, List.not_mem_nil, or_false] at hq
    rcases hq with rfl | rfl
    · decide
    · decide)

end QALearn
